import Mathlib

/-!
Verification of the scoring engine of the Marketing-Budget-Trainer
application.  The two evaluators live in
`src/components/BudgetPractice.tsx` (`evaluateAllocation`) and
`src/components/ProjectionBuilder.tsx` (`calculateDeviation`,
`evaluateAnswers`).  JavaScript numbers are modelled as rationals (ℚ);
a JavaScript division whose divisor is zero produces `NaN` in the
source and is modelled here as `none : Option ℚ`, which is then
propagated exactly as `NaN` propagates through `Math.max`, `Math.round`
and comparisons (every comparison with `NaN` is false).
Record<string, number> maps are modelled as association lists
`List (String × ℚ)`; the JavaScript read `userAnswer[channel] || 0`
(missing key coerced to 0) is `lookupD`.
-/

namespace MarketingTrainer

/-- `userAnswer[channel] || 0`: look a key up in an association list,
returning 0 when the key is absent. -/
def lookupD (m : List (String × ℚ)) (k : String) : ℚ :=
  match m with
  | [] => 0
  | p :: rest => if p.1 = k then p.2 else lookupD rest k

/-- JavaScript `Math.round x = ⌊x + 1/2⌋` (round half toward +∞).
`deviation.toFixed(0)` agrees with this on nonnegative input, the only
way it is used in the source. -/
def jsRound (x : ℚ) : ℤ := ⌊x + 1 / 2⌋

/-- JavaScript division: `a / b` is a real number unless `b = 0`
(then `0/0 = NaN`, modelled as `none`; the only zero-divisor reached in
this code base is the `0 / 0` of an empty answer key). -/
def jsDiv (a b : ℚ) : Option ℚ :=
  if b = 0 then none else some (a / b)

/-! ## Allocation evaluator (`BudgetPractice.tsx`, lines 94–133) -/

/-- Result record of `evaluateAllocation`:
`{ score: Math.round(score), messages, channelFeedback }`.
`score = none` models a `NaN` score. -/
structure AllocResult where
  score : Option ℤ
  messages : List String
  channelFeedback : List (String × String)
deriving DecidableEq

/-- The per-channel feedback cascade of `evaluateAllocation`
(lines 108–116 of `BudgetPractice.tsx`). -/
def channelMessage (userValue correctValue : ℚ) : String :=
  let deviation := |userValue - correctValue|
  if deviation = 0 then
    "Perfect allocation!"
  else if deviation ≤ 5 then
    "Very close! Minor adjustment could optimize this."
  else if deviation ≤ 10 then
    "Consider " ++ (if userValue > correctValue then "decreasing" else "increasing")
      ++ " by about " ++ toString (jsRound deviation) ++ "%."
  else
    (if userValue > correctValue then "Over" else "Under") ++ "-allocated by "
      ++ toString (jsRound deviation) ++ "%. This channel "
      ++ (if userValue > correctValue then "may be too expensive" else "offers better efficiency")
      ++ "."

/-- The top-level message cascade of `evaluateAllocation`
(lines 122–130), applied to the pre-rounding `score` value.  A `NaN`
score (`none`) fails every `>=` comparison, so it falls through to the
final `else`, exactly as in JavaScript. -/
def topMessage : Option ℚ → String
  | some s =>
    if s ≥ 90 then "Excellent work! Your allocation is nearly optimal."
    else if s ≥ 75 then "Good job! A few tweaks could improve efficiency."
    else if s ≥ 60 then "Not bad, but there is room for improvement in channel selection."
    else "Keep practicing! Consider the relative efficiency of each channel."
  | none => "Keep practicing! Consider the relative efficiency of each channel."

/-- `evaluateAllocation(userAnswer, correctAnswer)`: iterate over the
keys of `correctAnswer`, accumulating `totalDeviation` and per-channel
feedback; then `avgDeviation = totalDeviation / #keys`,
`score = Math.max(0, 100 - avgDeviation * 2)` (a `NaN` average keeps
`Math.max` at `NaN`, modelled by `Option.map`), one banded message, and
the returned score is `Math.round(score)`. -/
def evaluateAllocation (userAnswer correctAnswer : List (String × ℚ)) : AllocResult :=
  let totalDeviation := (correctAnswer.map (fun p => |lookupD userAnswer p.1 - p.2|)).sum
  let channelFeedback :=
    correctAnswer.map (fun p => (p.1, channelMessage (lookupD userAnswer p.1) p.2))
  let avgDeviation := jsDiv totalDeviation (correctAnswer.length : ℚ)
  let score := avgDeviation.map (fun a => max 0 (100 - a * 2))
  { score := score.map jsRound
    messages := [topMessage score]
    channelFeedback := channelFeedback }

/-! ## Projection evaluator (`ProjectionBuilder.tsx`, lines 56–117) -/

/-- `calculateDeviation(userValue, correctValue)` (lines 56–59). -/
def calculateDeviation (userValue correctValue : ℚ) : ℚ :=
  if correctValue = 0 then (if userValue = 0 then 0 else 100)
  else |(userValue - correctValue) / correctValue| * 100

/-- The deviation-band step function accumulated into `totalScore`
(lines 79–91). -/
def bandContribution (deviation : ℚ) : ℚ :=
  if deviation = 0 then 100
  else if deviation ≤ 5 then 95
  else if deviation ≤ 10 then 85
  else if deviation ≤ 20 then 70
  else if deviation ≤ 30 then 50
  else 25

/-- One entry of the `results` record built by `evaluateAnswers`
(lines 72–77): `{ correct, user, isCorrect, deviation }`. -/
structure MetricResult where
  correct : ℚ
  user : ℚ
  isCorrect : Bool
  deviation : ℚ
deriving DecidableEq

/-- Result of `evaluateAnswers`: the banded average score
(`Math.round(totalScore / #metrics)`, `NaN` as `none`) and the
per-metric results. -/
structure ProjResult where
  score : Option ℤ
  results : List (String × MetricResult)
deriving DecidableEq

/-- `evaluateAnswers` (lines 61–94, the pure part): iterate over the
entries of the scenario's answer key, computing each metric's deviation,
`isCorrect = deviation <= 10`, its banded contribution to `totalScore`,
and finally `avgScore = Math.round(totalScore / #metrics)`. -/
def evaluateAnswers (userAnswers answers : List (String × ℚ)) : ProjResult :=
  let results := answers.map (fun p =>
    let userValue := lookupD userAnswers p.1
    let deviation := calculateDeviation userValue p.2
    (p.1, { correct := p.2, user := userValue
            isCorrect := decide (deviation ≤ 10), deviation := deviation : MetricResult }))
  let totalScore := (answers.map (fun p =>
    bandContribution (calculateDeviation (lookupD userAnswers p.1) p.2))).sum
  { score := (jsDiv totalScore (answers.length : ℚ)).map jsRound
    results := results }

/-! ## Spec-side definitions (for refinement claims)

These are written from the specification's wording, to be compared with
the definitions above, which are translated from the source. -/

/-- Modelled from the spec wording of the per-metric score bands:
deviation 0 → 100, (0,5] → 95, (5,10] → 85, (10,20] → 70,
(20,30] → 50, else → 25. -/
def specStepContribution (d : ℚ) : ℚ :=
  if d = 0 then 100
  else if 0 < d ∧ d ≤ 5 then 95
  else if 5 < d ∧ d ≤ 10 then 85
  else if 10 < d ∧ d ≤ 20 then 70
  else if 20 < d ∧ d ≤ 30 then 50
  else 25

/-- Modelled from the spec wording of the per-channel feedback bands:
deviation == 0, 0 < deviation ≤ 5, 5 < deviation ≤ 10 (direction-aware,
rounded deviation), deviation > 10 (Over- or Under-allocated with
rationale). -/
def specChannelMessage (userValue correctValue : ℚ) : String :=
  let deviation := |userValue - correctValue|
  if deviation = 0 then
    "Perfect allocation!"
  else if 0 < deviation ∧ deviation ≤ 5 then
    "Very close! Minor adjustment could optimize this."
  else if 5 < deviation ∧ deviation ≤ 10 then
    "Consider " ++ (if userValue > correctValue then "decreasing" else "increasing")
      ++ " by about " ++ toString (jsRound deviation) ++ "%."
  else
    (if userValue > correctValue then "Over" else "Under") ++ "-allocated by "
      ++ toString (jsRound deviation) ++ "%. This channel "
      ++ (if userValue > correctValue then "may be too expensive" else "offers better efficiency")
      ++ "."

/-! ## Basic lemmas about the numeric helpers -/

lemma jsRound_mono {x y : ℚ} (h : x ≤ y) : jsRound x ≤ jsRound y :=
  Int.floor_mono (by linarith)

lemma jsRound_nonneg {x : ℚ} (h : 0 ≤ x) : 0 ≤ jsRound x := by
  unfold jsRound
  rw [Int.le_floor]
  push_cast
  linarith

lemma jsRound_le_100 {x : ℚ} (h : x ≤ 100) : jsRound x ≤ 100 := by
  have hlt : jsRound x < 101 := by
    unfold jsRound
    rw [Int.floor_lt]
    push_cast
    linarith
  omega

lemma jsRound_max_zero (x : ℚ) : jsRound (max 0 x) = max 0 (jsRound x) := by
  rcases le_or_lt 0 x with h | h
  · rw [max_eq_right h, max_eq_right (jsRound_nonneg h)]
  · rw [max_eq_left h.le, max_eq_left]
    · unfold jsRound
      norm_num
    · have hlt : jsRound x < 1 := by
        unfold jsRound
        rw [Int.floor_lt]
        push_cast
        linarith
      omega

lemma jsDiv_of_ne {a b : ℚ} (h : b ≠ 0) : jsDiv a b = some (a / b) := by
  simp [jsDiv, h]

lemma sum_map_const {α : Type} (l : List α) (c : ℚ) :
    (l.map fun _ => c).sum = l.length * c := by
  induction l with
  | nil => simp
  | cons a t ih =>
    simp [ih]
    ring

lemma lookupD_self {l : List (String × ℚ)} (h : (l.map Prod.fst).Nodup) :
    ∀ p ∈ l, lookupD l p.1 = p.2 := by
  induction l with
  | nil => simp
  | cons q t ih =>
    rw [List.map_cons, List.nodup_cons] at h
    intro p hp
    rcases List.mem_cons.1 hp with rfl | hp
    · simp [lookupD]
    · have hq : q.1 ≠ p.1 := by
        intro he
        exact h.1 (he ▸ List.mem_map_of_mem Prod.fst hp)
      simp only [lookupD, if_neg hq]
      exact ih h.2 p hp

lemma calculateDeviation_nonneg (u c : ℚ) : 0 ≤ calculateDeviation u c := by
  unfold calculateDeviation
  split_ifs <;> positivity

lemma calculateDeviation_self (c : ℚ) : calculateDeviation c c = 0 := by
  by_cases h : c = 0 <;> simp [calculateDeviation, h]

lemma bandContribution_bounds (d : ℚ) :
    25 ≤ bandContribution d ∧ bandContribution d ≤ 100 := by
  unfold bandContribution
  split_ifs <;> norm_num

lemma bandContribution_anti {d1 d2 : ℚ} (h0 : 0 ≤ d1) (h : d1 ≤ d2) :
    bandContribution d2 ≤ bandContribution d1 := by
  unfold bandContribution
  by_cases e1 : d1 = 0
  · subst_vars
    split_ifs <;> first | linarith | simp_all
  · have h1 : 0 < d1 := lt_of_le_of_ne h0 (Ne.symm e1)
    have e2 : ¬d2 = 0 := by
      intro e
      rw [e] at h
      linarith
    rw [if_neg e1, if_neg e2]
    split_ifs <;> linarith

lemma bandContribution_eq_spec {d : ℚ} (h0 : 0 ≤ d) :
    bandContribution d = specStepContribution d := by
  by_cases e0 : d = 0
  · simp [bandContribution, specStepContribution, e0]
  have hpos : 0 < d := lt_of_le_of_ne h0 (Ne.symm e0)
  by_cases e5 : d ≤ 5
  · simp [bandContribution, specStepContribution, e0, e5, hpos]
  have h5 : 5 < d := not_le.mp e5
  by_cases e10 : d ≤ 10
  · simp [bandContribution, specStepContribution, e0, e5, e10, h5]
  have h10 : 10 < d := not_le.mp e10
  by_cases e20 : d ≤ 20
  · simp [bandContribution, specStepContribution, e0, e5, e10, e20, h10]
  have h20 : 20 < d := not_le.mp e20
  by_cases e30 : d ≤ 30
  · simp [bandContribution, specStepContribution, e0, e5, e10, e20, e30, h20]
  · simp [bandContribution, specStepContribution, e0, e5, e10, e20, e30]

lemma channelMessage_eq_spec (u c : ℚ) :
    channelMessage u c = specChannelMessage u c := by
  unfold channelMessage specChannelMessage
  have h0 : 0 ≤ |u - c| := abs_nonneg _
  by_cases e0 : |u - c| = 0
  · simp [e0]
  have hpos : 0 < |u - c| := lt_of_le_of_ne h0 (Ne.symm e0)
  by_cases e5 : |u - c| ≤ 5
  · simp [e0, e5, hpos]
  have h5 : (5:ℚ) < |u - c| := not_le.mp e5
  by_cases e10 : |u - c| ≤ 10
  · simp [e0, e5, e10, h5]
  · simp [e0, e5, e10]

/-! ## Score characterizations and bounds -/

lemma length_cast_ne_zero {key : List (String × ℚ)} (h : key ≠ []) :
    (key.length : ℚ) ≠ 0 := by
  simpa [List.length_eq_zero] using h

lemma evaluateAllocation_score_eq (u key : List (String × ℚ)) (h : key ≠ []) :
    (evaluateAllocation u key).score =
      some (jsRound (max 0
        (100 - (key.map fun p => |lookupD u p.1 - p.2|).sum / key.length * 2))) := by
  simp [evaluateAllocation, jsDiv_of_ne (length_cast_ne_zero h)]

lemma evaluateAllocation_messages_eq (u key : List (String × ℚ)) (h : key ≠ []) :
    (evaluateAllocation u key).messages =
      [topMessage (some (max 0
        (100 - (key.map fun p => |lookupD u p.1 - p.2|).sum / key.length * 2)))] := by
  simp [evaluateAllocation, jsDiv_of_ne (length_cast_ne_zero h)]

lemma allocation_avg_nonneg (u key : List (String × ℚ)) :
    0 ≤ (key.map fun p => |lookupD u p.1 - p.2|).sum / key.length := by
  apply div_nonneg _ (Nat.cast_nonneg _)
  apply List.sum_nonneg
  intro x hx
  obtain ⟨p, _, rfl⟩ := List.mem_map.1 hx
  exact abs_nonneg _

lemma evaluateAllocation_score_bounds (u key : List (String × ℚ)) (h : key ≠ []) :
    ∃ s : ℤ, (evaluateAllocation u key).score = some s ∧ 0 ≤ s ∧ s ≤ 100 := by
  rw [evaluateAllocation_score_eq u key h]
  refine ⟨_, rfl, ?_, ?_⟩
  · exact jsRound_nonneg (le_max_left _ _)
  · apply jsRound_le_100
    have := allocation_avg_nonneg u key
    apply max_le (by norm_num)
    linarith

lemma evaluateAnswers_score_eq (ua key : List (String × ℚ)) (h : key ≠ []) :
    (evaluateAnswers ua key).score =
      some (jsRound ((key.map fun p =>
        bandContribution (calculateDeviation (lookupD ua p.1) p.2)).sum / key.length)) := by
  simp [evaluateAnswers, jsDiv_of_ne (length_cast_ne_zero h)]

lemma evaluateAnswers_score_bounds (ua key : List (String × ℚ)) (h : key ≠ []) :
    ∃ s : ℤ, (evaluateAnswers ua key).score = some s ∧ 0 ≤ s ∧ s ≤ 100 := by
  rw [evaluateAnswers_score_eq ua key h]
  have hlen : (0:ℚ) < key.length := by
    have := length_cast_ne_zero h
    positivity
  have hsum_lo : (0:ℚ) ≤ (key.map fun p =>
      bandContribution (calculateDeviation (lookupD ua p.1) p.2)).sum := by
    apply List.sum_nonneg
    intro x hx
    obtain ⟨p, _, rfl⟩ := List.mem_map.1 hx
    linarith [(bandContribution_bounds (calculateDeviation (lookupD ua p.1) p.2)).1]
  have hsum_hi : (key.map fun p =>
      bandContribution (calculateDeviation (lookupD ua p.1) p.2)).sum ≤ key.length * 100 := by
    calc (key.map fun p =>
        bandContribution (calculateDeviation (lookupD ua p.1) p.2)).sum
        ≤ (key.map fun _ => (100:ℚ)).sum := by
          apply List.sum_le_sum
          intro p _
          exact (bandContribution_bounds _).2
      _ = key.length * 100 := sum_map_const key 100
  refine ⟨_, rfl, ?_, ?_⟩
  · exact jsRound_nonneg (div_nonneg hsum_lo hlen.le)
  · apply jsRound_le_100
    rw [div_le_iff₀ hlen]
    linarith

/-! ## Claim theorems -/

/-- C1: for every user allocation map and every (non-empty) answer key,
`evaluateAllocation` scores the per-channel absolute deviations (a
channel absent from the user map counts as user value 0, and the key
set of the answer key is authoritative), averages them over the answer
key's channels, and returns `max(0, round(100 - avgDeviation * 2))`;
in particular the concrete three-channel example scores 87. -/
theorem allocation_score_formula (u key : List (String × ℚ)) (h : key ≠ []) :
    (evaluateAllocation u key).score =
      some (max 0 (jsRound
        (100 - (key.map fun p => |lookupD u p.1 - p.2|).sum / key.length * 2))) ∧
    (evaluateAllocation
      [("Google Ads", 60), ("LinkedIn Ads", 25), ("Email Marketing", 15)]
      [("Google Ads", 50), ("LinkedIn Ads", 30), ("Email Marketing", 20)]).score = some 87 := by
  constructor
  · rw [evaluateAllocation_score_eq u key h, jsRound_max_zero]
  · norm_num +decide [evaluateAllocation, lookupD, jsDiv, jsRound, abs_of_nonneg, abs_of_nonpos]

theorem allocation_score_formula_witness :
    (evaluateAllocation [("A", (60:ℚ))] [("A", (50:ℚ))]).score =
      some (max 0 (jsRound
        (100 - ([(("A":String), (50:ℚ))].map
          fun p => |lookupD [("A", (60:ℚ))] p.1 - p.2|).sum /
          ([(("A":String), (50:ℚ))].length : ℚ) * 2))) ∧
    (evaluateAllocation
      [("Google Ads", 60), ("LinkedIn Ads", 25), ("Email Marketing", 15)]
      [("Google Ads", 50), ("LinkedIn Ads", 30), ("Email Marketing", 20)]).score = some 87 :=
  allocation_score_formula [("A", 60)] [("A", 50)] (List.cons_ne_nil _ _)

/-- C2: the projection evaluator's overall score is the rounded
unweighted average, over the answer key's metrics, of the per-metric
step-function contributions (0 → 100, (0,5] → 95, (5,10] → 85,
(10,20] → 70, (20,30] → 50, else 25) applied to each metric's
deviation percent. -/
theorem projection_score_formula (ua key : List (String × ℚ)) (h : key ≠ []) :
    (evaluateAnswers ua key).score =
      some (jsRound ((key.map fun p =>
        specStepContribution (calculateDeviation (lookupD ua p.1) p.2)).sum / key.length)) := by
  rw [evaluateAnswers_score_eq ua key h]
  have hmap : (key.map fun p =>
      bandContribution (calculateDeviation (lookupD ua p.1) p.2)) =
      key.map fun p => specStepContribution (calculateDeviation (lookupD ua p.1) p.2) :=
    List.map_congr_left fun p _ => bandContribution_eq_spec (calculateDeviation_nonneg _ _)
  rw [hmap]

theorem projection_score_formula_witness :
    (evaluateAnswers [("CAC", (55:ℚ))] [("CAC", (50:ℚ))]).score =
      some (jsRound (([(("CAC":String), (50:ℚ))].map fun p =>
        specStepContribution (calculateDeviation (lookupD [("CAC", (55:ℚ))] p.1) p.2)).sum /
        ([(("CAC":String), (50:ℚ))].length : ℚ))) :=
  projection_score_formula [("CAC", 55)] [("CAC", 50)] (List.cons_ne_nil _ _)

/-- C3 counterexample: for userAnswer {A: 55.25} and answerKey {A: 50}
the returned score is 90 (so the claim's ≥ 90 band applied to the
returned score would select the \"Excellent\" message), yet the message
actually returned is the \"Good job\" one: the band cascade runs on the
pre-rounding score 89.5, not on the returned score. -/
theorem allocation_message_band_counterexample :
    (evaluateAllocation [("A", (221:ℚ)/4)] [("A", 50)]).score = some 90 ∧
    (evaluateAllocation [("A", (221:ℚ)/4)] [("A", 50)]).messages =
      ["Good job! A few tweaks could improve efficiency."] ∧
    "Good job! A few tweaks could improve efficiency." ≠
      "Excellent work! Your allocation is nearly optimal." := by
  refine ⟨?_, ?_, by decide⟩
  · norm_num +decide [evaluateAllocation, lookupD, jsDiv, jsRound, abs_of_nonneg]
  · norm_num +decide [evaluateAllocation, lookupD, jsDiv, topMessage, abs_of_nonneg]

/-- C3 (amended): the single top-level message of `evaluateAllocation`
is selected by the bands ≥ 90 / ≥ 75 / ≥ 60 / else, mutually exclusive
and evaluated high to low, applied to the pre-rounding clamped score
`max(0, 100 - avgDeviation * 2)` (not to the returned rounded score). -/
theorem allocation_message_from_unrounded_score
    (u key : List (String × ℚ)) (h : key ≠ []) :
    (evaluateAllocation u key).messages =
      [if max 0 (100 - (key.map fun p => |lookupD u p.1 - p.2|).sum / key.length * 2) ≥ 90 then
        "Excellent work! Your allocation is nearly optimal."
      else if max 0 (100 - (key.map fun p => |lookupD u p.1 - p.2|).sum / key.length * 2) ≥ 75 then
        "Good job! A few tweaks could improve efficiency."
      else if max 0 (100 - (key.map fun p => |lookupD u p.1 - p.2|).sum / key.length * 2) ≥ 60 then
        "Not bad, but there is room for improvement in channel selection."
      else "Keep practicing! Consider the relative efficiency of each channel."] := by
  rw [evaluateAllocation_messages_eq u key h]
  rfl

theorem allocation_message_from_unrounded_score_witness :
    (evaluateAllocation [("A", (221:ℚ)/4)] [("A", (50:ℚ))]).messages =
      [if max 0 (100 - ([(("A":String), (50:ℚ))].map
          fun p => |lookupD [("A", (221:ℚ)/4)] p.1 - p.2|).sum /
          ([(("A":String), (50:ℚ))].length : ℚ) * 2) ≥ 90 then
        "Excellent work! Your allocation is nearly optimal."
      else if max 0 (100 - ([(("A":String), (50:ℚ))].map
          fun p => |lookupD [("A", (221:ℚ)/4)] p.1 - p.2|).sum /
          ([(("A":String), (50:ℚ))].length : ℚ) * 2) ≥ 75 then
        "Good job! A few tweaks could improve efficiency."
      else if max 0 (100 - ([(("A":String), (50:ℚ))].map
          fun p => |lookupD [("A", (221:ℚ)/4)] p.1 - p.2|).sum /
          ([(("A":String), (50:ℚ))].length : ℚ) * 2) ≥ 60 then
        "Not bad, but there is room for improvement in channel selection."
      else "Keep practicing! Consider the relative efficiency of each channel."] :=
  allocation_message_from_unrounded_score [("A", (221:ℚ)/4)] [("A", 50)] (List.cons_ne_nil _ _)

/-- C4: `calculateDeviation` equals the spec's piecewise definition:
0 when both values are 0; exactly 100 when the correct value is 0 and
the user value is not; and `|u - c| / |c| * 100` when the correct value
is non-zero (so the division only ever happens with a non-zero
divisor). -/
theorem calculateDeviation_characterization (u c : ℚ) :
    calculateDeviation u c =
      if c = 0 then (if u = 0 then 0 else 100) else |u - c| / |c| * 100 := by
  unfold calculateDeviation
  split_ifs <;> first | rfl | rw [abs_div]

/-- C5: in every projection result, `isCorrect` holds exactly when the
metric's deviation percent is at most 10 (boundary inclusive); in
particular for correct value 50 and user value 55 the deviation is
exactly 10, `isCorrect` is true, and the metric's banded contribution
(and hence the single-metric score) is 85. -/
theorem isCorrect_boundary_inclusive :
    (∀ (ua key : List (String × ℚ)), ∀ r ∈ (evaluateAnswers ua key).results,
        (r.2.isCorrect = true ↔ r.2.deviation ≤ 10)) ∧
    evaluateAnswers [("CAC", 55)] [("CAC", 50)] =
      { score := some 85,
        results := [("CAC", { correct := 50, user := 55, isCorrect := true, deviation := 10 })] } := by
  constructor
  · intro ua key r hr
    simp only [evaluateAnswers, List.mem_map] at hr
    obtain ⟨p, hp, rfl⟩ := hr
    simp
  · norm_num +decide [evaluateAnswers, lookupD, jsDiv, jsRound, calculateDeviation,
      bandContribution, abs_of_nonneg]

theorem isCorrect_boundary_inclusive_witness :
    (("CAC", MetricResult.mk 50 55 true 10) ∈
      (evaluateAnswers [("CAC", 55)] [("CAC", 50)]).results) ∧
    (("CAC", MetricResult.mk 50 55 true 10).2.isCorrect = true ↔
      ("CAC", MetricResult.mk 50 55 true 10).2.deviation ≤ 10) := by
  have hmem : ("CAC", MetricResult.mk 50 55 true 10) ∈
      (evaluateAnswers [("CAC", 55)] [("CAC", 50)]).results := by
    rw [isCorrect_boundary_inclusive.2]
    exact List.mem_singleton_self _
  exact ⟨hmem, isCorrect_boundary_inclusive.1 _ _ _ hmem⟩

/-- C6: the per-channel feedback of `evaluateAllocation` is, channel by
channel of the answer key, the band cascade of the spec: deviation 0,
(0,5], (5,10] (direction-aware with rounded deviation), and > 10
(Over- or Under-allocated with rationale), ties going to the lower band. -/
theorem channel_feedback_by_deviation_bands (u key : List (String × ℚ)) :
    (evaluateAllocation u key).channelFeedback =
      key.map fun p => (p.1, specChannelMessage (lookupD u p.1) p.2) := by
  simp only [evaluateAllocation]
  exact List.map_congr_left fun p _ => by rw [channelMessage_eq_spec]

/-- C7: submitting the answer key itself (for a non-empty key without
duplicate channels) is a perfect result: allocation score 100 with
every channel feedback \"Perfect allocation!\", and projection score
100 with every metric correct at deviation 0. -/
theorem perfect_answer_perfect_score (key : List (String × ℚ))
    (hnd : (key.map Prod.fst).Nodup) (hne : key ≠ []) :
    (evaluateAllocation key key).score = some 100 ∧
    (∀ q ∈ (evaluateAllocation key key).channelFeedback, q.2 = "Perfect allocation!") ∧
    (evaluateAnswers key key).score = some 100 ∧
    (∀ r ∈ (evaluateAnswers key key).results, r.2.isCorrect = true ∧ r.2.deviation = 0) := by
  have hdev : ∀ p ∈ key, |lookupD key p.1 - p.2| = (fun _ => (0:ℚ)) p := by
    intro p hp
    rw [lookupD_self hnd p hp]
    simp
  have hsum : (key.map fun p => |lookupD key p.1 - p.2|).sum = 0 := by
    rw [List.map_congr_left hdev, sum_map_const]
    ring
  refine ⟨?_, ?_, ?_, ?_⟩
  · rw [evaluateAllocation_score_eq key key hne, hsum]
    rw [zero_div, max_eq_right (by norm_num : (0:ℚ) ≤ 100 - 0 * 2)]
    norm_num [jsRound]
  · intro q hq
    simp only [evaluateAllocation, List.mem_map] at hq
    obtain ⟨p, hp, rfl⟩ := hq
    simp only
    rw [lookupD_self hnd p hp]
    simp [channelMessage]
  · have hdev2 : ∀ p ∈ key,
        bandContribution (calculateDeviation (lookupD key p.1) p.2) = (fun _ => (100:ℚ)) p := by
      intro p hp
      rw [lookupD_self hnd p hp, calculateDeviation_self]
      simp [bandContribution]
    rw [evaluateAnswers_score_eq key key hne, List.map_congr_left hdev2, sum_map_const,
      mul_div_cancel_left₀ _ (length_cast_ne_zero hne)]
    norm_num [jsRound]
  · intro r hr
    simp only [evaluateAnswers, List.mem_map] at hr
    obtain ⟨p, hp, rfl⟩ := hr
    simp only
    rw [lookupD_self hnd p hp, calculateDeviation_self]
    norm_num

theorem perfect_answer_perfect_score_witness :
    (evaluateAllocation [("A", (50:ℚ))] [("A", (50:ℚ))]).score = some 100 ∧
    (∀ q ∈ (evaluateAllocation [("A", (50:ℚ))] [("A", (50:ℚ))]).channelFeedback,
      q.2 = "Perfect allocation!") ∧
    (evaluateAnswers [("A", (50:ℚ))] [("A", (50:ℚ))]).score = some 100 ∧
    (∀ r ∈ (evaluateAnswers [("A", (50:ℚ))] [("A", (50:ℚ))]).results,
      r.2.isCorrect = true ∧ r.2.deviation = 0) :=
  perfect_answer_perfect_score [("A", 50)] (by simp) (List.cons_ne_nil _ _)

/-- C8: for both evaluators, holding the answer key and every other
channel/metric fixed, the returned score is monotonically non-increasing
as one channel's absolute deviation (allocation) respectively one
metric's deviation percent (projection) increases. -/
theorem score_antitone_in_deviation :
    (∀ (key u1 u2 : List (String × ℚ)) (c : String),
      key ≠ [] →
      (∀ k, k ≠ c → lookupD u1 k = lookupD u2 k) →
      (∀ p ∈ key, p.1 = c → |lookupD u1 c - p.2| ≤ |lookupD u2 c - p.2|) →
      ∃ s1 s2 : ℤ, (evaluateAllocation u1 key).score = some s1 ∧
        (evaluateAllocation u2 key).score = some s2 ∧ s2 ≤ s1) ∧
    (∀ (key u1 u2 : List (String × ℚ)) (m : String),
      key ≠ [] →
      (∀ k, k ≠ m → lookupD u1 k = lookupD u2 k) →
      (∀ p ∈ key, p.1 = m →
        calculateDeviation (lookupD u1 m) p.2 ≤ calculateDeviation (lookupD u2 m) p.2) →
      ∃ s1 s2 : ℤ, (evaluateAnswers u1 key).score = some s1 ∧
        (evaluateAnswers u2 key).score = some s2 ∧ s2 ≤ s1) := by
  constructor
  · intro key u1 u2 c hne hagree hdev
    have hlen : (0:ℚ) < key.length := by
      have := length_cast_ne_zero hne
      positivity
    have hsum : (key.map fun p => |lookupD u1 p.1 - p.2|).sum ≤
        (key.map fun p => |lookupD u2 p.1 - p.2|).sum := by
      apply List.sum_le_sum
      intro p hp
      by_cases hc : p.1 = c
      · subst hc
        exact hdev p hp rfl
      · rw [hagree p.1 hc]
    rw [evaluateAllocation_score_eq u1 key hne, evaluateAllocation_score_eq u2 key hne]
    refine ⟨_, _, rfl, rfl, ?_⟩
    apply jsRound_mono
    apply max_le_max le_rfl
    have hdivs : (key.map fun p => |lookupD u1 p.1 - p.2|).sum / key.length ≤
        (key.map fun p => |lookupD u2 p.1 - p.2|).sum / key.length := by
      gcongr
    linarith [hdivs]
  · intro key u1 u2 m hne hagree hdev
    have hlen : (0:ℚ) < key.length := by
      have := length_cast_ne_zero hne
      positivity
    have hsum : (key.map fun p =>
        bandContribution (calculateDeviation (lookupD u2 p.1) p.2)).sum ≤
        (key.map fun p =>
          bandContribution (calculateDeviation (lookupD u1 p.1) p.2)).sum := by
      apply List.sum_le_sum
      intro p hp
      by_cases hc : p.1 = m
      · subst hc
        exact bandContribution_anti (calculateDeviation_nonneg _ _) (hdev p hp rfl)
      · rw [hagree p.1 hc]
    rw [evaluateAnswers_score_eq u1 key hne, evaluateAnswers_score_eq u2 key hne]
    refine ⟨_, _, rfl, rfl, ?_⟩
    apply jsRound_mono
    gcongr

theorem score_antitone_in_deviation_witness :
    (∃ s1 s2 : ℤ, (evaluateAllocation [("A", (50:ℚ))] [("A", (50:ℚ))]).score = some s1 ∧
      (evaluateAllocation [("A", (60:ℚ))] [("A", (50:ℚ))]).score = some s2 ∧ s2 ≤ s1) ∧
    (∃ s1 s2 : ℤ, (evaluateAnswers [("A", (50:ℚ))] [("A", (50:ℚ))]).score = some s1 ∧
      (evaluateAnswers [("A", (80:ℚ))] [("A", (50:ℚ))]).score = some s2 ∧ s2 ≤ s1) := by
  constructor
  · apply score_antitone_in_deviation.1 [("A", 50)] [("A", 50)] [("A", 60)] "A"
      (List.cons_ne_nil _ _)
    · intro k hk
      simp [lookupD, show ¬"A" = k from fun h => hk h.symm]
    · intro p hp _
      rw [List.mem_singleton] at hp
      subst hp
      norm_num [lookupD]
  · apply score_antitone_in_deviation.2 [("A", 50)] [("A", 50)] [("A", 80)] "A"
      (List.cons_ne_nil _ _)
    · intro k hk
      simp [lookupD, show ¬"A" = k from fun h => hk h.symm]
    · intro p hp _
      rw [List.mem_singleton] at hp
      subst hp
      norm_num [lookupD, calculateDeviation, abs_of_nonneg, abs_of_nonpos]

/-- C9 counterexample: with an empty answer key (a well-typed numeric
input map), the accumulated total is divided by the key count 0, so the
returned score is the NaN of `0 / 0` (modelled as `none`) — not an
integer in [0, 100]. -/
theorem allocation_empty_key_score_nan :
    (evaluateAllocation [] []).score = none := by
  simp [evaluateAllocation, jsDiv]

/-- C9 (amended): for every user map and every NON-EMPTY answer key,
`evaluateAllocation` terminates with a score that is an integer in
[0, 100] and a messages sequence containing exactly one string. -/
theorem allocation_result_invariants (u key : List (String × ℚ)) (h : key ≠ []) :
    ∃ s : ℤ, (evaluateAllocation u key).score = some s ∧ 0 ≤ s ∧ s ≤ 100 ∧
      (evaluateAllocation u key).messages.length = 1 := by
  obtain ⟨s, hs, h0, h100⟩ := evaluateAllocation_score_bounds u key h
  exact ⟨s, hs, h0, h100, by simp [evaluateAllocation]⟩

theorem allocation_result_invariants_witness :
    ∃ s : ℤ, (evaluateAllocation [("A", (60:ℚ))] [("A", (50:ℚ))]).score = some s ∧
      0 ≤ s ∧ s ≤ 100 ∧
      (evaluateAllocation [("A", (60:ℚ))] [("A", (50:ℚ))]).messages.length = 1 :=
  allocation_result_invariants [("A", 60)] [("A", 50)] (List.cons_ne_nil _ _)

/-- C10: with an empty answer key both evaluators divide the
accumulated total by the key count 0, so the returned score is the NaN
of `0 / 0` (modelled as `none`), not a number in [0, 100]; for
non-empty answer keys both scores are integers in [0, 100]. -/
theorem empty_key_gives_nan_score :
    (∀ u : List (String × ℚ), (evaluateAllocation u []).score = none) ∧
    (∀ u : List (String × ℚ), (evaluateAnswers u []).score = none) ∧
    (∀ (u key : List (String × ℚ)), key ≠ [] →
      ∃ s : ℤ, (evaluateAllocation u key).score = some s ∧ 0 ≤ s ∧ s ≤ 100) ∧
    (∀ (u key : List (String × ℚ)), key ≠ [] →
      ∃ s : ℤ, (evaluateAnswers u key).score = some s ∧ 0 ≤ s ∧ s ≤ 100) := by
  refine ⟨?_, ?_, evaluateAllocation_score_bounds, evaluateAnswers_score_bounds⟩
  · intro u
    simp [evaluateAllocation, jsDiv]
  · intro u
    simp [evaluateAnswers, jsDiv]

theorem empty_key_gives_nan_score_witness :
    (evaluateAllocation [("A", (60:ℚ))] []).score = none ∧
    (evaluateAnswers [("A", (60:ℚ))] []).score = none ∧
    (∃ s : ℤ, (evaluateAllocation [("A", (60:ℚ))] [("B", (50:ℚ))]).score = some s ∧
      0 ≤ s ∧ s ≤ 100) ∧
    (∃ s : ℤ, (evaluateAnswers [("A", (60:ℚ))] [("B", (50:ℚ))]).score = some s ∧
      0 ≤ s ∧ s ≤ 100) :=
  ⟨empty_key_gives_nan_score.1 _, empty_key_gives_nan_score.2.1 _,
    empty_key_gives_nan_score.2.2.1 _ _ (List.cons_ne_nil _ _),
    empty_key_gives_nan_score.2.2.2 _ _ (List.cons_ne_nil _ _)⟩

end MarketingTrainer
